import Mathlib

/-!
Shallow embedding of the Smart Streetlight Dashboard
(src/streamlit_dashboard.py) and proofs about its data access,
aggregation, command dispatch and authentication logic.

The remote Firebase realtime database is modelled as an association list
from device keys to partially populated device payloads.  Python
exceptions raised by the Firebase SDK are modelled by explicit outcome
types; Python float division is modelled over the rationals with an
explicit `Option` marking the division-by-zero fault.
-/

/-- A raw value stored for one streetlight at `streetlights/<id>` in the
remote store.  Each field is optional: the dashboard reads the fields
with `light_data.get(key, default)` and the control functions write the
fields `mode`, `manualState` and `status`. -/
structure StoreValue where
  status : Option String
  mode : Option String
  isDark : Option Bool
  motionDetected : Option Bool
  online : Option Bool
  lastUpdate : Option String
  timestamp : Option Int
  manualState : Option Bool
deriving Repr, DecidableEq

/-- A store value with no fields present. -/
def emptyVal : StoreValue :=
  ⟨none, none, none, none, none, none, none, none⟩

/-- One row of the DataFrame built by `get_streetlight_data`: the
`light_info` dict with keys ID, Status, Mode, Is Dark, Motion Detected,
Online, Last Update, Timestamp.  Note that the row carries no
`manualState` field. -/
structure LightInfo where
  ID : String
  Status : String
  Mode : String
  IsDark : Bool
  MotionDetected : Bool
  Online : Bool
  LastUpdate : String
  Timestamp : Int
deriving Repr, DecidableEq

/-- The column names of the `light_info` dict built by
`get_streetlight_data` (lines 115-124 of the source): these are the only
fields a fetched record carries. -/
def light_info_keys : List String :=
  ["ID", "Status", "Mode", "Is Dark", "Motion Detected", "Online",
   "Last Update", "Timestamp"]

/-- Normalization of one store entry into a row, from
`get_streetlight_data`: every absent field is replaced by its default
(`status` ↦ "off", `mode` ↦ "automatic", booleans ↦ false,
`lastUpdate` ↦ "", `timestamp` ↦ 0) and the entry key becomes `ID`. -/
def lightInfo (key : String) (v : StoreValue) : LightInfo :=
  { ID := key
    Status := v.status.getD "off"
    Mode := v.mode.getD "automatic"
    IsDark := v.isDark.getD false
    MotionDetected := v.motionDetected.getD false
    Online := v.online.getD false
    LastUpdate := v.lastUpdate.getD ""
    Timestamp := v.timestamp.getD 0 }

/-- The remote collection at `streetlights`: keys paired with payloads. -/
abbrev Store : Type := List (String × StoreValue)

/-- Key lookup in the remote collection (the value stored at
`streetlights/<id>`, if any). -/
def storeLookup (store : Store) (id : String) : Option StoreValue :=
  match store with
  | [] => none
  | kv :: t => if kv.1 = id then some kv.2 else storeLookup t id

/-- The snapshot `get_streetlight_data` builds from a reachable store
whose every entry is a well-formed payload: one normalized row per
entry, in store order. -/
def fetchSnap (store : Store) : List LightInfo :=
  store.map (fun kv => lightInfo kv.1 kv.2)

/-- A raw item as returned by `ref.get()`: either a well-formed payload,
or a value on which the normalization raises (carrying the exception
message). -/
inductive ItemVal where
  | good (v : StoreValue)
  | bad (msg : String)
deriving Repr, DecidableEq

/-- Outcome of the remote read of the streetlights collection via
`db.reference` and `get`:
either the read raises (store unreachable, timeout, ...) with some
message, or it returns a list of key/item pairs (empty when the
collection is empty). -/
inductive FetchOutcome where
  | raised (msg : String)
  | ok (items : List (String × ItemVal))
deriving Repr, DecidableEq

/-- Normalizing one fetched item: a well-formed payload yields its row,
a malformed one raises. -/
def normalizeItem : String × ItemVal → Except String LightInfo
  | (k, ItemVal.good v) => Except.ok (lightInfo k v)
  | (_, ItemVal.bad msg) => Except.error msg

/-- The `for light_id, light_data in data.items()` loop of
`get_streetlight_data`: rows accumulate in order and the first raising
item aborts the whole loop with its exception. -/
def buildLights : List (String × ItemVal) → Except String (List LightInfo)
  | [] => Except.ok []
  | it :: rest =>
    match normalizeItem it with
    | Except.error msg => Except.error msg
    | Except.ok r =>
      match buildLights rest with
      | Except.error msg => Except.error msg
      | Except.ok rs => Except.ok (r :: rs)

/-- What `get_streetlight_data` hands back: the returned DataFrame
(always a DataFrame, never a raised exception) together with the error
banner it displayed via `st.error`, if any. -/
structure FetchRender where
  snapshot : List LightInfo
  errorShown : Option String
deriving Repr, DecidableEq

/-- Model of `get_streetlight_data`: the whole body runs under a
catch-all exception handler, so a raising read or a raising
normalization step displays an `Error fetching data` banner and returns
the empty DataFrame; otherwise the normalized rows are returned (an
empty collection yields the empty DataFrame and no error). -/
def get_streetlight_data : FetchOutcome → FetchRender
  | FetchOutcome.raised msg =>
    ⟨[], some ("Error fetching data: " ++ msg)⟩
  | FetchOutcome.ok items =>
    match buildLights items with
    | Except.ok recs => ⟨recs, none⟩
    | Except.error msg => ⟨[], some ("Error fetching data: " ++ msg)⟩

/-- Wrapping a plain store as a list of well-formed fetched items. -/
def goodItems (store : Store) : List (String × ItemVal) :=
  store.map (fun kv => (kv.1, ItemVal.good kv.2))

/-- Pointwise store update used to model a Firebase `update` on the path
`streetlights/<id>`: the entry at `id` is rewritten by `f`, every other
entry is untouched. -/
def updVal (f : StoreValue → StoreValue) (id : String) :
    String × StoreValue → String × StoreValue :=
  fun kv => if kv.1 = id then (kv.1, f kv.2) else kv

/-- Firebase realtime-database `update` at `streetlights/<id>`: the
given children are merged into the value at that path; when the path
does not exist it is created with just those children (the store does
not reject unknown keys). -/
def firebaseUpdate (store : Store) (id : String)
    (f : StoreValue → StoreValue) : Store :=
  match storeLookup store id with
  | some _ => store.map (updVal f id)
  | none => store ++ [(id, f emptyVal)]

/-- Effect of `set_light_mode(light_id, mode)` on the store:
the update call merges only the `mode` child at
`streetlights/<light_id>`. -/
def set_light_mode (store : Store) (id : String) (mode : String) : Store :=
  firebaseUpdate store id (fun v => { v with mode := some mode })

/-- Effect of `set_manual_state(light_id, state)` on the store: one
`ref.update` call merges the two children `manualState := state` and
the derived `status` (on for true, off for false) together at
`streetlights/<light_id>`. -/
def set_manual_state (store : Store) (id : String) (state : Bool) : Store :=
  firebaseUpdate store id
    (fun v =>
      { v with
          manualState := some state
          status := some (if state then "on" else "off") })

/-- Outcome of the remote write inside a control function: either the
`update` call returns, or it raises an exception with some message. -/
inductive WriteOutcome where
  | ok
  | exn (msg : String)
deriving Repr, DecidableEq

/-- The boolean `set_light_mode` returns: `True` when the write
returned, `False` for every raised exception (the `except Exception`
arm displays `st.error` and returns `False`, whatever the exception
was). -/
def set_light_mode_result : WriteOutcome → Bool
  | WriteOutcome.ok => true
  | WriteOutcome.exn _ => false

/-- The boolean `set_manual_state` returns, with the same
catch-everything shape as `set_light_mode`. -/
def set_manual_state_result : WriteOutcome → Bool
  | WriteOutcome.ok => true
  | WriteOutcome.exn _ => false

/-- Count of rows whose `Status` column equals on. -/
def countOn (df : List LightInfo) : Nat :=
  (df.filter (fun r => r.Status = "on")).length

/-- Count of rows whose `Status` column equals off. -/
def countOff (df : List LightInfo) : Nat :=
  (df.filter (fun r => r.Status = "off")).length

/-- Count of rows whose `Online` column is true. -/
def countOnlineTrue (df : List LightInfo) : Nat :=
  (df.filter (fun r => r.Online = true)).length

/-- Count of rows with `Online` equal to `False`. -/
def countOnlineFalse (df : List LightInfo) : Nat :=
  (df.filter (fun r => r.Online = false)).length

/-- Count of rows whose `Mode` column equals automatic. -/
def countAutomatic (df : List LightInfo) : Nat :=
  (df.filter (fun r => r.Mode = "automatic")).length

/-- Count of rows whose `Status` column equals off while the dark flag
is false. -/
def countEnergyEfficient (df : List LightInfo) : Nat :=
  (df.filter (fun r => r.Status = "off" ∧ r.IsDark = false)).length

/-- Python `count / total * 100` over exact rationals: `none` models the
`ZeroDivisionError` raised when `total = 0`, otherwise the percentage
value. -/
def pypct (count total : Nat) : Option ℚ :=
  if total = 0 then none else some ((count : ℚ) / (total : ℚ) * 100)

/-- The four key metrics `show_overview` renders (lines 210-222 of the
source), with each displayed percentage kept as an exact rational. -/
structure OverviewMetrics where
  totalLights : Nat
  lightsOn : Nat
  lightsOff : Nat
  onlineLights : Nat
  onPct : Option ℚ
  offPct : Option ℚ
  onlinePct : Option ℚ
deriving Repr, DecidableEq

/-- Metrics computed by `show_overview`: the total row count, the count
of rows with status on, their difference as Lights OFF, the count of
online rows, and each metric delta as `count / total * 100`. -/
def show_overview (df : List LightInfo) : OverviewMetrics :=
  let total_lights := df.length
  let lights_on := countOn df
  let lights_off := total_lights - lights_on
  let online_lights := countOnlineTrue df
  { totalLights := total_lights
    lightsOn := lights_on
    lightsOff := lights_off
    onlineLights := online_lights
    onPct := pypct lights_on total_lights
    offPct := pypct lights_off total_lights
    onlinePct := pypct online_lights total_lights }

/-- The percentage metrics `show_analytics` renders (lines 434-447 of
the source). -/
structure AnalyticsMetrics where
  autoModeCount : Nat
  autoModePct : Option ℚ
  onlineRate : Option ℚ
  energyEfficient : Nat
  energyEfficientPct : Option ℚ
deriving Repr, DecidableEq

/-- Efficiency metrics of `show_analytics`: automatic-mode share, uptime
rate and energy-efficiency share, each a `count / len(df) * 100`
division. -/
def show_analytics (df : List LightInfo) : AnalyticsMetrics :=
  let auto_mode_count := countAutomatic df
  let energy_efficient := countEnergyEfficient df
  { autoModeCount := auto_mode_count
    autoModePct := pypct auto_mode_count df.length
    onlineRate := pypct (countOnlineTrue df) df.length
    energyEfficient := energy_efficient
    energyEfficientPct := pypct energy_efficient df.length }

/-- The page selected in the sidebar radio of `main_dashboard`. -/
inductive Page where
  | overview
  | controlPanel
  | analytics
  | settings
deriving Repr, DecidableEq

/-- What one iteration of the `main_dashboard` refresh loop renders. -/
inductive TickRender where
  | noData
  | overview (m : OverviewMetrics)
  | controlPanel
  | analytics (m : AnalyticsMetrics)
  | settings
deriving Repr, DecidableEq

/-- One iteration of the refresh loop in `main_dashboard` (lines
182-202): when the fetched DataFrame is empty the warning
`No streetlight data available` is shown and the page renderers are
skipped; otherwise the selected page is rendered on the snapshot. -/
def main_dashboard_tick (page : Page) (df : List LightInfo) : TickRender :=
  if df.isEmpty then TickRender.noData
  else
    match page with
    | Page.overview => TickRender.overview (show_overview df)
    | Page.controlPanel => TickRender.controlPanel
    | Page.analytics => TickRender.analytics (show_analytics df)
    | Page.settings => TickRender.settings

/-- Whether a rendered tick contains a percentage whose division
faulted (its `pypct` is `none`). -/
def rendersFault : TickRender → Bool
  | TickRender.overview m =>
    m.onPct.isNone || m.offPct.isNone || m.onlinePct.isNone
  | TickRender.analytics m =>
    m.autoModePct.isNone || m.onlineRate.isNone || m.energyEfficientPct.isNone
  | _ => false

/-- The warning message `main_dashboard` shows for a snapshot: the
`No streetlight data available` warning exactly when `df.empty`. -/
def main_dashboard_message (snapshot : List LightInfo) : Option String :=
  if snapshot.isEmpty then some "No streetlight data available" else none

/-- The inner `password_entered` callback of `check_password`: the
session flag `password_correct` becomes `True` exactly when the entered
pair is the hardcoded `("Om", "Om123")`. -/
def password_entered (u p : String) : Bool :=
  if u = "Om" ∧ p = "Om123" then true else false

/-- Model of `check_password` as a function of the session flag
`password_correct` (`none` when the key is absent, i.e. before any
login attempt): it returns true only in the branch where the flag is
true. -/
def check_password : Option Bool → Bool
  | none => false
  | some false => false
  | some true => true

/-- Where the `__main__` block stops. -/
inductive MainStage where
  | loginHalt
  | firebaseHalt
  | dashboard
deriving Repr, DecidableEq

/-- The `__main__` block (lines 487-498): `st.stop()` before the
dashboard unless `check_password()` returns `True`, then `st.stop()`
unless Firebase initializes, then `main_dashboard()`. -/
def main_entry (session : Option Bool) (firebaseOk : Bool) : MainStage :=
  if check_password session = false then MainStage.loginHalt
  else if firebaseOk = false then MainStage.firebaseHalt
  else MainStage.dashboard

/-! Helper lemmas about the store model -/

theorem storeLookup_map_updVal_self (store : Store) (id : String)
    (f : StoreValue → StoreValue) (v : StoreValue)
    (h : storeLookup store id = some v) :
    storeLookup (store.map (updVal f id)) id = some (f v) := by
  induction store with
  | nil => simp [storeLookup] at h
  | cons kv t ih =>
    by_cases hk : kv.1 = id
    · simp [storeLookup, hk] at h
      simp [storeLookup, updVal, hk, h]
    · simp [storeLookup, hk] at h
      simp [storeLookup, updVal, hk]
      exact ih h

theorem storeLookup_map_updVal_other (store : Store) (id k : String)
    (f : StoreValue → StoreValue) (hk : k ≠ id) :
    storeLookup (store.map (updVal f id)) k = storeLookup store k := by
  induction store with
  | nil => rfl
  | cons kv t ih =>
    by_cases h1 : kv.1 = id
    · have h3 : id ≠ k := fun hc => hk hc.symm
      simp [storeLookup, updVal, h1, h3, ih]
    · by_cases h2 : kv.1 = k
      · have h3 : k ≠ id := hk
        simp [storeLookup, updVal, h1, h2, h3]
      · simp [storeLookup, updVal, h1, h2, ih]

theorem storeLookup_append_last (store : Store) (id : String)
    (w : StoreValue) (h : storeLookup store id = none) :
    storeLookup (store ++ [(id, w)]) id = some w := by
  induction store with
  | nil => simp [storeLookup]
  | cons kv t ih =>
    by_cases hk : kv.1 = id
    · simp [storeLookup, hk] at h
    · simp [storeLookup, hk] at h
      simp [storeLookup, hk]
      exact ih h

theorem storeLookup_append_other (store : Store) (id k : String)
    (w : StoreValue) (hk : k ≠ id) :
    storeLookup (store ++ [(id, w)]) k = storeLookup store k := by
  induction store with
  | nil =>
    have h2 : id ≠ k := fun hc => hk hc.symm
    simp [storeLookup, h2]
  | cons kv t ih =>
    by_cases h2 : kv.1 = k
    · simp [storeLookup, h2]
    · simp [storeLookup, h2, ih]

theorem storeLookup_firebaseUpdate_self_some (store : Store) (id : String)
    (f : StoreValue → StoreValue) (v : StoreValue)
    (h : storeLookup store id = some v) :
    storeLookup (firebaseUpdate store id f) id = some (f v) := by
  unfold firebaseUpdate
  rw [h]
  exact storeLookup_map_updVal_self store id f v h

theorem storeLookup_firebaseUpdate_self_none (store : Store) (id : String)
    (f : StoreValue → StoreValue) (h : storeLookup store id = none) :
    storeLookup (firebaseUpdate store id f) id = some (f emptyVal) := by
  unfold firebaseUpdate
  rw [h]
  exact storeLookup_append_last store id (f emptyVal) h

theorem storeLookup_firebaseUpdate_other (store : Store) (id k : String)
    (f : StoreValue → StoreValue) (hk : k ≠ id) :
    storeLookup (firebaseUpdate store id f) k = storeLookup store k := by
  unfold firebaseUpdate
  cases h : storeLookup store id with
  | some v => exact storeLookup_map_updVal_other store id k f hk
  | none => exact storeLookup_append_other store id k (f emptyVal) hk

/-! Helper lemmas about fetching and normalization -/

theorem find?_fetchSnap (store : Store) (id : String) :
    (fetchSnap store).find? (fun r => r.ID = id)
      = (storeLookup store id).map (fun v => lightInfo id v) := by
  induction store with
  | nil => rfl
  | cons kv t ih =>
    by_cases hk : kv.1 = id
    · subst hk
      simp [fetchSnap, storeLookup, List.find?, lightInfo]
    · simp [fetchSnap, storeLookup, List.find?, lightInfo, hk] at ih ⊢
      exact ih

theorem buildLights_goodItems (store : Store) :
    buildLights (goodItems store) = Except.ok (fetchSnap store) := by
  induction store with
  | nil => rfl
  | cons kv t ih =>
    simp [goodItems, buildLights, normalizeItem, fetchSnap] at ih ⊢
    rw [ih]

theorem buildLights_bad (items : List (String × ItemVal))
    (h : ∃ x ∈ items, ∃ m, x.2 = ItemVal.bad m) :
    ∃ msg, buildLights items = Except.error msg := by
  induction items with
  | nil => simp at h
  | cons it rest ih =>
    rcases h with ⟨x, hx, m, hm⟩
    rcases List.mem_cons.mp hx with hx1 | hx2
    · subst hx1
      cases hval : x.2 with
      | good v => rw [hval] at hm; cases hm
      | bad msg =>
        refine ⟨msg, ?_⟩
        have : normalizeItem x = Except.error msg := by
          cases x with
          | mk k iv =>
            simp at hval
            rw [hval]
            rfl
        simp [buildLights, this]
    · rcases ih ⟨x, hx2, m, hm⟩ with ⟨msg, hmsg⟩
      cases hni : normalizeItem it with
      | error m2 => exact ⟨m2, by simp [buildLights, hni]⟩
      | ok r => exact ⟨msg, by simp [buildLights, hni, hmsg]⟩

theorem get_streetlight_data_goodItems (store : Store) :
    get_streetlight_data (FetchOutcome.ok (goodItems store))
      = ⟨fetchSnap store, none⟩ := by
  simp [get_streetlight_data, buildLights_goodItems]

/-! Helper lemmas about counting -/

theorem countOn_add_countOff (df : List LightInfo)
    (h : ∀ r ∈ df, r.Status = "on" ∨ r.Status = "off") :
    countOn df + countOff df = df.length := by
  induction df with
  | nil => rfl
  | cons r t ih =>
    have hr := h r (List.mem_cons_self r t)
    have ht := ih (fun x hx => h x (List.mem_cons_of_mem r hx))
    have hneq : ("on" : String) ≠ "off" := by decide
    rcases hr with h1 | h1
    · have h2 : r.Status ≠ "off" := by rw [h1]; exact hneq
      simp [countOn, countOff, List.filter, h1, h2] at ht ⊢
      omega
    · have h2 : r.Status ≠ "on" := by rw [h1]; intro hc; exact hneq hc.symm
      simp [countOn, countOff, List.filter, h1, h2] at ht ⊢
      omega

theorem countOnlineTrue_add_countOnlineFalse (df : List LightInfo) :
    countOnlineTrue df + countOnlineFalse df = df.length := by
  induction df with
  | nil => rfl
  | cons r t ih =>
    cases honline : r.Online with
    | true =>
      simp [countOnlineTrue, countOnlineFalse, List.filter, honline] at ih ⊢
      omega
    | false =>
      simp [countOnlineTrue, countOnlineFalse, List.filter, honline] at ih ⊢
      omega

theorem countOn_le_length (df : List LightInfo) : countOn df ≤ df.length :=
  List.length_filter_le _ df

/-- A concrete ten-record snapshot: six records with status on, three
records with online false. -/
def dfTen : List LightInfo :=
  [⟨"L01", "on", "automatic", false, false, false, "", 0⟩,
   ⟨"L02", "on", "automatic", false, false, false, "", 0⟩,
   ⟨"L03", "on", "automatic", true, false, false, "", 0⟩,
   ⟨"L04", "on", "manual", false, true, true, "", 0⟩,
   ⟨"L05", "on", "manual", false, false, true, "", 0⟩,
   ⟨"L06", "on", "automatic", true, false, true, "", 0⟩,
   ⟨"L07", "off", "automatic", false, false, true, "", 0⟩,
   ⟨"L08", "off", "automatic", false, false, true, "", 0⟩,
   ⟨"L09", "off", "manual", true, false, true, "", 0⟩,
   ⟨"L10", "off", "automatic", false, false, true, "", 0⟩]

/-! Claim theorems -/

/-- C2: for every store entry whose value is missing any of the optional
fields, fetchAll produces a record with the documented defaults for the
missing fields — status off, mode automatic, isDark false,
motionDetected false, online false, timestamp 0 — and with id equal to
the entry key. -/
theorem C2_fetch_defaults (k : String) (v : StoreValue) :
    (lightInfo k v).ID = k ∧
    (v.status = none → (lightInfo k v).Status = "off") ∧
    (v.mode = none → (lightInfo k v).Mode = "automatic") ∧
    (v.isDark = none → (lightInfo k v).IsDark = false) ∧
    (v.motionDetected = none → (lightInfo k v).MotionDetected = false) ∧
    (v.online = none → (lightInfo k v).Online = false) ∧
    (v.timestamp = none → (lightInfo k v).Timestamp = 0) := by
  refine ⟨rfl, ?_, ?_, ?_, ?_, ?_, ?_⟩ <;> intro h <;> simp [lightInfo, h]

/-- Witness for C2: the record fetched for an entry with every optional
field absent equals the documented defaults. -/
theorem C2_fetch_defaults_witness :
    (emptyVal.status = none ∧ emptyVal.mode = none ∧
     emptyVal.isDark = none ∧ emptyVal.motionDetected = none ∧
     emptyVal.online = none ∧ emptyVal.timestamp = none) ∧
    ((lightInfo "L1" emptyVal).ID = "L1" ∧
     (lightInfo "L1" emptyVal).Status = "off" ∧
     (lightInfo "L1" emptyVal).Mode = "automatic" ∧
     (lightInfo "L1" emptyVal).IsDark = false ∧
     (lightInfo "L1" emptyVal).MotionDetected = false ∧
     (lightInfo "L1" emptyVal).Online = false ∧
     (lightInfo "L1" emptyVal).Timestamp = 0) := by
  have h := C2_fetch_defaults "L1" emptyVal
  exact ⟨⟨rfl, rfl, rfl, rfl, rfl, rfl⟩,
    ⟨h.1, h.2.1 rfl, h.2.2.1 rfl, h.2.2.2.1 rfl, h.2.2.2.2.1 rfl,
     h.2.2.2.2.2.1 rfl, h.2.2.2.2.2.2 rfl⟩⟩

/-- C6: over every snapshot of records whose status lies in the declared
enum, the count of records with status on plus the count with status off
equals the snapshot size, and the overview metrics Lights ON and Lights
OFF report exactly this partition. -/
theorem C6_status_partition (df : List LightInfo)
    (h : ∀ r ∈ df, r.Status = "on" ∨ r.Status = "off") :
    countOn df + countOff df = df.length ∧
    (show_overview df).lightsOn = countOn df ∧
    (show_overview df).lightsOff = countOff df ∧
    (show_overview df).lightsOn + (show_overview df).lightsOff = df.length := by
  have hp := countOn_add_countOff df h
  have hle := countOn_le_length df
  refine ⟨hp, rfl, ?_, ?_⟩ <;> simp [show_overview] <;> omega

/-- Witness for C6 on a concrete two-record snapshot. -/
theorem C6_status_partition_witness :
    (∀ r ∈ ([⟨"L1", "on", "automatic", false, false, true, "", 0⟩,
             ⟨"L2", "off", "manual", false, false, false, "", 0⟩] :
              List LightInfo),
        r.Status = "on" ∨ r.Status = "off") ∧
    (countOn [⟨"L1", "on", "automatic", false, false, true, "", 0⟩,
              ⟨"L2", "off", "manual", false, false, false, "", 0⟩]
       + countOff [⟨"L1", "on", "automatic", false, false, true, "", 0⟩,
                   ⟨"L2", "off", "manual", false, false, false, "", 0⟩] = 2) := by
  have h := C6_status_partition
    [⟨"L1", "on", "automatic", false, false, true, "", 0⟩,
     ⟨"L2", "off", "manual", false, false, false, "", 0⟩] (by decide)
  exact ⟨by decide, h.1⟩

/-- C7: every snapshot of 10 records with exactly 6 in status on and
exactly 3 with online false produces the overview metrics
Lights ON = 6 at 60 percent, Lights OFF = 4 at 40 percent and
Online Devices = 7 at 70 percent, each percentage computed as
count / total * 100. -/
theorem C7_overview_scenario (df : List LightInfo)
    (h10 : df.length = 10) (h6 : countOn df = 6)
    (h3 : countOnlineFalse df = 3) :
    (show_overview df).lightsOn = 6 ∧
    (show_overview df).onPct = some 60 ∧
    (show_overview df).lightsOff = 4 ∧
    (show_overview df).offPct = some 40 ∧
    (show_overview df).onlineLights = 7 ∧
    (show_overview df).onlinePct = some 70 := by
  have honline := countOnlineTrue_add_countOnlineFalse df
  have h7 : countOnlineTrue df = 7 := by omega
  refine ⟨?_, ?_, ?_, ?_, ?_, ?_⟩ <;>
    simp [show_overview, pypct, h10, h6, h7] <;> norm_num

/-- Witness for C7 on a concrete ten-record snapshot. -/
theorem C7_overview_scenario_witness :
    ((dfTen.length = 10 ∧ countOn dfTen = 6 ∧ countOnlineFalse dfTen = 3) ∧
     ((show_overview dfTen).lightsOn = 6 ∧
      (show_overview dfTen).onPct = some 60 ∧
      (show_overview dfTen).lightsOff = 4 ∧
      (show_overview dfTen).offPct = some 40 ∧
      (show_overview dfTen).onlineLights = 7 ∧
      (show_overview dfTen).onlinePct = some 70)) :=
  ⟨⟨by decide, by decide, by decide⟩,
   C7_overview_scenario dfTen (by decide) (by decide) (by decide)⟩

/-- C4: no rendered refresh-loop iteration contains a faulted percentage
division, and on the empty snapshot the division branch is unreachable:
the tick renders the no-data warning without computing any percentage. -/
theorem C4_no_division_fault (page : Page) (df : List LightInfo) :
    rendersFault (main_dashboard_tick page df) = false ∧
    (df.isEmpty = true → main_dashboard_tick page df = TickRender.noData) := by
  by_cases hemp : df.isEmpty
  · constructor
    · simp [main_dashboard_tick, hemp, rendersFault]
    · intro _
      simp [main_dashboard_tick, hemp]
  · have hlen : df.length ≠ 0 := by
      cases df with
      | nil => simp at hemp
      | cons r t => simp
    constructor
    · cases page <;>
        simp [main_dashboard_tick, hemp, rendersFault, show_overview,
          show_analytics, pypct, hlen]
    · intro hc
      exact absurd hc hemp

/-- Witness for C4 at the empty snapshot: the overview tick renders the
no-data warning and contains no faulted division. -/
theorem C4_no_division_fault_witness :
    (([] : List LightInfo).isEmpty = true) ∧
    (rendersFault (main_dashboard_tick Page.overview []) = false ∧
     main_dashboard_tick Page.overview [] = TickRender.noData) :=
  ⟨by decide,
   ⟨(C4_no_division_fault Page.overview []).1,
    (C4_no_division_fault Page.overview []).2 (by decide)⟩⟩

/-- C9: authentication succeeds exactly on the single hardcoded
username/password pair, and the main block reaches the dashboard (Data
Access, Aggregation, Command Dispatch) only when `check_password`
returned true. -/
theorem C9_auth_gate (u p : String) (session : Option Bool) (fb : Bool) :
    (password_entered u p = true ↔ (u = "Om" ∧ p = "Om123")) ∧
    (check_password (some (password_entered u p)) = true
      ↔ (u = "Om" ∧ p = "Om123")) ∧
    (check_password none = false) ∧
    (main_entry session fb = MainStage.dashboard
      → check_password session = true) := by
  have h1 : password_entered u p = true ↔ (u = "Om" ∧ p = "Om123") := by
    unfold password_entered
    by_cases h : u = "Om" ∧ p = "Om123" <;> simp [h]
  have hcp : ∀ b : Bool, check_password (some b) = b := by
    intro b
    cases b <;> rfl
  refine ⟨h1, ?_, rfl, ?_⟩
  · rw [hcp]
    exact h1
  · intro h
    by_cases hc : check_password session = false
    · simp [main_entry, hc] at h
    · cases hcs : check_password session with
      | false => exact absurd hcs hc
      | true => rfl

/-- Witness for C9: the hardcoded pair is accepted, a different pair is
rejected, and without a successful login the main block halts at the
login screen. -/
theorem C9_auth_gate_witness :
    password_entered "Om" "Om123" = true ∧
    password_entered "admin" "admin123" ≠ true ∧
    check_password none = false ∧
    main_entry none true ≠ MainStage.dashboard := by
  have h1 := C9_auth_gate "Om" "Om123" (some true) true
  have h2 := C9_auth_gate "admin" "admin123" none true
  refine ⟨h1.1.mpr ⟨rfl, rfl⟩, ?_, h2.2.2.1, ?_⟩
  · intro hc
    exact (by decide : ¬ ("admin" = "Om" ∧ "admin123" = "Om123"))
      (h2.1.mp hc)
  · intro hc
    have hcp := h2.2.2.2 hc
    rw [h2.2.2.1] at hcp
    cases hcp

/-- C10: `get_streetlight_data` never propagates an exception — a
raising read yields the empty snapshot, and whenever any normalization
step raises, the whole partially built row list is discarded and the
empty snapshot is returned, never a strict non-empty subset of the
store entries. -/
theorem C10_no_partial_snapshot (msg : String)
    (items : List (String × ItemVal))
    (h : ∃ x ∈ items, ∃ m, x.2 = ItemVal.bad m) :
    (get_streetlight_data (FetchOutcome.raised msg)).snapshot = [] ∧
    (get_streetlight_data (FetchOutcome.ok items)).snapshot = [] := by
  constructor
  · rfl
  · rcases buildLights_bad items h with ⟨m2, hm2⟩
    simp [get_streetlight_data, hm2]

/-- Witness for C10: a fetch whose second item raises returns the empty
snapshot, not the one-row prefix that was already built. -/
theorem C10_no_partial_snapshot_witness :
    (∃ x ∈ [("a", ItemVal.good emptyVal), ("b", ItemVal.bad "boom")],
       ∃ m, x.2 = ItemVal.bad m) ∧
    ((get_streetlight_data (FetchOutcome.raised "timeout")).snapshot = [] ∧
     (get_streetlight_data (FetchOutcome.ok
        [("a", ItemVal.good emptyVal), ("b", ItemVal.bad "boom")])).snapshot
       = []) :=
  ⟨⟨("b", ItemVal.bad "boom"), by simp, "boom", rfl⟩,
   C10_no_partial_snapshot "timeout"
     [("a", ItemVal.good emptyVal), ("b", ItemVal.bad "boom")]
     ⟨("b", ItemVal.bad "boom"), by simp, "boom", rfl⟩⟩

/-- C3 counterexample: with the store unreachable, `get_streetlight_data`
does not fail with a ConnectivityError — it returns normally with the
same empty snapshot an empty collection produces, and the caller renders
the identical no-data warning, so the two outcomes are not
distinguishable by the caller. -/
theorem C3_counterexample :
    get_streetlight_data (FetchOutcome.raised "store unreachable")
      = ⟨[], some "Error fetching data: store unreachable"⟩ ∧
    (get_streetlight_data (FetchOutcome.raised "store unreachable")).snapshot
      = (get_streetlight_data (FetchOutcome.ok [])).snapshot ∧
    main_dashboard_message
        (get_streetlight_data (FetchOutcome.raised "store unreachable")).snapshot
      = main_dashboard_message
        (get_streetlight_data (FetchOutcome.ok [])).snapshot :=
  ⟨rfl, rfl, rfl⟩

/-- C3 amended: an empty collection yields the empty snapshot with no
error banner; an unreachable store is caught inside
`get_streetlight_data`, which displays an error banner and returns the
same empty snapshot instead of failing with ConnectivityError, and
`main_dashboard` then shows the same no-data warning in both runs. -/
theorem C3_empty_vs_unreachable (msg : String) :
    get_streetlight_data (FetchOutcome.ok []) = ⟨[], none⟩ ∧
    get_streetlight_data (FetchOutcome.raised msg)
      = ⟨[], some ("Error fetching data: " ++ msg)⟩ ∧
    (get_streetlight_data (FetchOutcome.raised msg)).snapshot
      = (get_streetlight_data (FetchOutcome.ok [])).snapshot ∧
    main_dashboard_message
        (get_streetlight_data (FetchOutcome.raised msg)).snapshot
      = some "No streetlight data available" ∧
    main_dashboard_message
        (get_streetlight_data (FetchOutcome.ok [])).snapshot
      = some "No streetlight data available" :=
  ⟨rfl, rfl, rfl, rfl, rfl⟩

/-- C1 counterexample: after `setManualState(id, true)` the store entry
holds manualState true, but the snapshot a subsequent fetch yields is
identical to the snapshot of a store whose entry has manualState false —
the fetched row schema carries no manualState column at all — so
fetchAll does not yield a record with manualState = true. -/
theorem C1_counterexample :
    fetchSnap (set_manual_state [("L1", emptyVal)] "L1" true)
      = [lightInfo "L1"
          { emptyVal with manualState := some false, status := some "on" }] ∧
    (storeLookup (set_manual_state [("L1", emptyVal)] "L1" true) "L1").map
        (fun v => v.manualState) = some (some true) ∧
    "manualState" ∉ light_info_keys := by
  refine ⟨by decide, by decide, by decide⟩

/-- C1 amended: for every id present in the store, `setManualState`
issues a single update writing manualState = state and
status = on/off together; a subsequent fetch yields a record for id
whose status is on after state true and off after state false, while
the manualState value lives only in the store entry, not in the fetched
record. -/
theorem C1_set_manual_state_roundtrip (store : Store) (id : String)
    (state : Bool) (v : StoreValue) (h : storeLookup store id = some v) :
    storeLookup (set_manual_state store id state) id
      = some { v with
                 manualState := some state
                 status := some (if state then "on" else "off") } ∧
    (fetchSnap (set_manual_state store id state)).find? (fun r => r.ID = id)
      = some (lightInfo id
          { v with
              manualState := some state
              status := some (if state then "on" else "off") }) ∧
    (lightInfo id
        { v with
            manualState := some state
            status := some (if state then "on" else "off") }).Status
      = (if state then "on" else "off") := by
  have h1 := storeLookup_firebaseUpdate_self_some store id
    (fun w =>
      { w with
          manualState := some state
          status := some (if state then "on" else "off") }) v h
  refine ⟨h1, ?_, ?_⟩
  · rw [show set_manual_state store id state
        = firebaseUpdate store id
            (fun w =>
              { w with
                  manualState := some state
                  status := some (if state then "on" else "off") })
        from rfl]
    rw [find?_fetchSnap, h1]
    rfl
  · simp [lightInfo]

/-- Witness for C1 amended on a one-record store, switching the light
on. -/
theorem C1_set_manual_state_roundtrip_witness :
    (storeLookup [("L1", emptyVal)] "L1" = some emptyVal) ∧
    (storeLookup (set_manual_state [("L1", emptyVal)] "L1" true) "L1"
       = some { emptyVal with
                  manualState := some true
                  status := some (if true then "on" else "off") } ∧
     (fetchSnap (set_manual_state [("L1", emptyVal)] "L1" true)).find?
         (fun r => r.ID = "L1")
       = some (lightInfo "L1"
           { emptyVal with
               manualState := some true
               status := some (if true then "on" else "off") }) ∧
     (lightInfo "L1"
         { emptyVal with
             manualState := some true
             status := some (if true then "on" else "off") }).Status
       = (if true then "on" else "off")) :=
  ⟨by decide,
   C1_set_manual_state_roundtrip [("L1", emptyVal)] "L1" true emptyVal
     (by decide)⟩

/-- C8: for every id present in the store, `set_light_mode` merges only
the mode field of the record at id — every other field of that record
and every other record are unchanged — and a subsequent fetch yields a
record for id whose Mode equals the written value. -/
theorem C8_set_mode_frame (store : Store) (id mode : String)
    (v : StoreValue) (h : storeLookup store id = some v) :
    storeLookup (set_light_mode store id mode) id
      = some { v with mode := some mode } ∧
    ({ v with mode := some mode } : StoreValue).status = v.status ∧
    ({ v with mode := some mode } : StoreValue).isDark = v.isDark ∧
    ({ v with mode := some mode } : StoreValue).motionDetected
      = v.motionDetected ∧
    ({ v with mode := some mode } : StoreValue).online = v.online ∧
    ({ v with mode := some mode } : StoreValue).lastUpdate = v.lastUpdate ∧
    ({ v with mode := some mode } : StoreValue).timestamp = v.timestamp ∧
    ({ v with mode := some mode } : StoreValue).manualState = v.manualState ∧
    (∀ k, k ≠ id →
      storeLookup (set_light_mode store id mode) k = storeLookup store k) ∧
    (fetchSnap (set_light_mode store id mode)).find? (fun r => r.ID = id)
      = some (lightInfo id { v with mode := some mode }) ∧
    (lightInfo id { v with mode := some mode }).Mode = mode := by
  have h1 := storeLookup_firebaseUpdate_self_some store id
    (fun w => { w with mode := some mode }) v h
  refine ⟨h1, rfl, rfl, rfl, rfl, rfl, rfl, rfl, ?_, ?_, rfl⟩
  · intro k hk
    exact storeLookup_firebaseUpdate_other store id k
      (fun w => { w with mode := some mode }) hk
  · rw [show set_light_mode store id mode
        = firebaseUpdate store id (fun w => { w with mode := some mode })
        from rfl]
    rw [find?_fetchSnap, h1]
    rfl

/-- Witness for C8 on a two-record store: the targeted record gets the
written mode, the other record is untouched. -/
theorem C8_set_mode_frame_witness :
    (storeLookup [("L1", emptyVal), ("L2", emptyVal)] "L1" = some emptyVal) ∧
    ("L2" : String) ≠ "L1" ∧
    (storeLookup (set_light_mode [("L1", emptyVal), ("L2", emptyVal)]
        "L1" "manual") "L1" = some { emptyVal with mode := some "manual" } ∧
     storeLookup (set_light_mode [("L1", emptyVal), ("L2", emptyVal)]
        "L1" "manual") "L2" = storeLookup [("L1", emptyVal), ("L2", emptyVal)] "L2" ∧
     (lightInfo "L1" { emptyVal with mode := some "manual" }).Mode
       = "manual") := by
  have h := C8_set_mode_frame [("L1", emptyVal), ("L2", emptyVal)]
    "L1" "manual" emptyVal (by decide)
  exact ⟨by decide, by decide,
    h.1, h.2.2.2.2.2.2.2.2.1 "L2" (by decide), h.2.2.2.2.2.2.2.2.2.2⟩

/-- C5 counterexample: a NotFound-shaped remote rejection and a
connectivity failure produce the same boolean result False from the
control functions — no failure shape distinct from ConnectivityError is
propagated — and under the merge-update semantics of the remote store a
dispatch to the nonexistent id L9 in a store holding only L1 succeeds
by creating the record at L9. -/
theorem C5_counterexample :
    set_light_mode_result (WriteOutcome.exn "NotFound: unknown key L9")
      = set_light_mode_result
          (WriteOutcome.exn "ConnectivityError: store unreachable") ∧
    set_manual_state_result (WriteOutcome.exn "NotFound: unknown key L9")
      = set_manual_state_result
          (WriteOutcome.exn "ConnectivityError: store unreachable") ∧
    set_light_mode_result (WriteOutcome.exn "NotFound: unknown key L9")
      = false ∧
    storeLookup (set_light_mode [("L1", emptyVal)] "L9" "manual") "L9"
      = some { emptyVal with mode := some "manual" } :=
  ⟨rfl, rfl, rfl, by decide⟩

/-- C5 amended: for every id absent from the store, the control
functions surface any remote exception as the same boolean failure as a
connectivity error (no distinct NotFound shape reaches the caller);
under the merge-update semantics of the remote store the dispatch
succeeds by creating the record at id, and in every case no other
record is altered. -/
theorem C5_dispatch_nonexistent (store : Store) (id mode : String)
    (state : Bool) (msg msg2 : String)
    (h : storeLookup store id = none) :
    set_light_mode_result (WriteOutcome.exn msg)
      = set_light_mode_result (WriteOutcome.exn msg2) ∧
    set_light_mode_result (WriteOutcome.exn msg) = false ∧
    set_manual_state_result (WriteOutcome.exn msg) = false ∧
    set_light_mode_result WriteOutcome.ok = true ∧
    storeLookup (set_light_mode store id mode) id
      = some { emptyVal with mode := some mode } ∧
    (∀ k, k ≠ id →
      storeLookup (set_light_mode store id mode) k = storeLookup store k) ∧
    (∀ k, k ≠ id →
      storeLookup (set_manual_state store id state) k = storeLookup store k) := by
  refine ⟨rfl, rfl, rfl, rfl, ?_, ?_, ?_⟩
  · exact storeLookup_firebaseUpdate_self_none store id
      (fun w => { w with mode := some mode }) h
  · intro k hk
    exact storeLookup_firebaseUpdate_other store id k
      (fun w => { w with mode := some mode }) hk
  · intro k hk
    exact storeLookup_firebaseUpdate_other store id k
      (fun w =>
        { w with
            manualState := some state
            status := some (if state then "on" else "off") }) hk

/-- Witness for C5 amended: dispatch to the absent id L9 over a store
holding only L1 leaves L1 untouched and creates L9. -/
theorem C5_dispatch_nonexistent_witness :
    (storeLookup [("L1", emptyVal)] "L9" = none) ∧
    (set_light_mode_result (WriteOutcome.exn "boom") = false ∧
     storeLookup (set_light_mode [("L1", emptyVal)] "L9" "manual") "L9"
       = some { emptyVal with mode := some "manual" } ∧
     storeLookup (set_light_mode [("L1", emptyVal)] "L9" "manual") "L1"
       = storeLookup [("L1", emptyVal)] "L1" ∧
     storeLookup (set_manual_state [("L1", emptyVal)] "L9" false) "L1"
       = storeLookup [("L1", emptyVal)] "L1") := by
  have h := C5_dispatch_nonexistent [("L1", emptyVal)] "L9" "manual"
    false "boom" "crash" (by decide)
  exact ⟨by decide, h.2.1, h.2.2.2.2.1,
    h.2.2.2.2.2.1 "L1" (by decide), h.2.2.2.2.2.2 "L1" (by decide)⟩
